import Mathlib

/-!
# Verification of the Valve forwarding controller (faucet/valve.py)

Shallow embedding of the parts of `faucet/valve.py` (class `Valve`) that the
claims under scrutiny are about.  Python floats that carry epoch times are
modelled as exact rationals (`ℚ`); machine ints as `Nat`.  Methods of the
collaborating managers (pipeline, host, flood, ACL, packet library, `dp.py`)
are not under `src/`; where a claim touches them they are abstracted as
opaque message tokens, and helpers whose body lives outside `src/` are
modelled from the spec and flagged as such in their doc comments.
-/

namespace Faucet

/-! ## Stack link state machine (`Valve._next_stack_link_state`) -/

/-- Per-port stack link states used by `_next_stack_link_state`
(`port.is_stack_admin_down/_init/_down/_up` and the setters
`port.stack_init/stack_down/stack_up`). -/
inductive StackState where
  | init
  | up
  | down
  | adminDown
deriving DecidableEq, Repr

/-- Embedding of `Valve._next_stack_link_state(port, now)`.

`probe_info` models `port.dyn_stack_probe_info`: `none` when no stack probe
was ever recorded, otherwise the pair
`(last_seen_lldp_time, stack_correct)` — `_verify_stack_lldp` always stores
both keys together.  `send_interval` is the remote DP's LLDP send interval
and `max_lldp_lost` the port's threshold; `now` the current epoch time.
Returns `none` when the port keeps its current state (`next_state = None`),
otherwise the new state.  Python's float division/comparison is modelled on
`ℚ`; `if time_since_lldp_seen:` is float truthiness, i.e. `≠ 0`. -/
def next_stack_link_state (cur : StackState) (probe_info : Option (ℚ × Bool))
    (send_interval max_lldp_lost now : ℚ) : Option StackState :=
  if cur = .adminDown then
    none
  else
    match probe_info with
    | none =>
      if cur = .down then some .init else none
    | some (last_seen_lldp_time, stack_correct) =>
      let time_since_lldp_seen : ℚ := now - last_seen_lldp_time
      let num_lost_lldp : ℚ := time_since_lldp_seen / send_interval
      -- stack_timed_out is initialised True and cleared when
      -- num_lost_lldp < max_lldp_lost
      let stack_timed_out : Prop := ¬ num_lost_lldp < max_lldp_lost
      if stack_correct = false then
        if cur = .down then none else some .down
      else if stack_timed_out then
        -- "Stay in init state if we never got a packet."
        if cur = .down ∨ time_since_lldp_seen = 0 then none else some .down
      else
        if cur = .up then none else some .up

/-- The state a port is left in after `_update_stack_link_state` applies the
result of `_next_stack_link_state` (`next_state()` when not `None`). -/
def apply_next_state (cur : StackState) (next : Option StackState) : StackState :=
  next.getD cur

/-! ## Packet-in rate limiting (`Valve.rate_limit_packet_ins`) -/

/-- The two counters `_last_packet_in_sec` / `_packet_in_count_sec`
(both initialised to 0 by `dp_init`). -/
structure RateLimitState where
  last_packet_in_sec : ℚ
  packet_in_count_sec : Nat
deriving DecidableEq, Repr

/-- Embedding of `Valve.rate_limit_packet_ins(now)`.  Returns the updated
counters together with the boolean result.  `dp.ignore_learn_ins` is a
non-negative config int; Python truthiness `if self.dp.ignore_learn_ins:`
is `≠ 0`. -/
def rate_limit_packet_ins (st : RateLimitState) (ignore_learn_ins : Nat)
    (now : ℚ) : RateLimitState × Bool :=
  let st1 : RateLimitState :=
    if st.last_packet_in_sec ≠ now then ⟨now, 0⟩ else st
  let st2 : RateLimitState := ⟨st1.last_packet_in_sec, st1.packet_in_count_sec + 1⟩
  if ignore_learn_ins ≠ 0 ∧ st2.packet_in_count_sec % ignore_learn_ins = 0 then
    (st2, true)
  else
    (st2, false)

/-! ## LACP PDU handling (`Valve.lacp_handler`, `lacp_up`, `lacp_down`) -/

/-- The LACP-dynamic fields of a port that `lacp_handler` reads and writes.
`dyn_lacp_up` models the `{DOWN(0), UP(1)}` state as a `Bool`;
`dyn_last_lacp_pkt` models the recorded PDU by an identifier with decidable
equality standing for its string rendering (the code compares
`str(lacp_pkt) != str(dyn_last_lacp_pkt)`). -/
structure LacpPortState where
  dyn_lacp_up : Bool
  dyn_last_lacp_pkt : Option Nat
  dyn_lacp_last_resp_time : Option ℚ
  dyn_lacp_updated_time : Option ℚ
deriving DecidableEq, Repr

/-- Which of `lacp_up` / `lacp_down` a `lacp_handler` call performed. -/
inductive LacpTransition where
  | toUp
  | toDown
deriving DecidableEq, Repr

/-- Result of one `lacp_handler` invocation on a port: the new port state,
the LACP state transition taken (if any), and whether a reply PDU
(`_lacp_actions` packet-out) was emitted. -/
structure LacpHandlerResult where
  state : LacpPortState
  transition : Option LacpTransition
  reply_emitted : Bool
deriving DecidableEq, Repr

/-- Embedding of the body of `Valve.lacp_handler(now, pkt_meta)` for a valid
LACP PDU on a LACP-configured port (SLOW-protocol multicast destination,
SLOW ethertype, `port.lacp` set, `parse_lacp_pkt` succeeded).

`lacp_pkt` is the parsed PDU's identity, `actor_up` the result of
`valve_packet.lacp_actor_up(lacp_pkt)`, `passthrough_ok` whether no
configured `lacp_passthrough` peer port is LACP-down (when it is false,
`_lacp_actions` returns `[]`, suppressing the reply PDU).  Mirrors the
source order: `age` is read before any transition under the guard
`if pkt_meta.port.dyn_lacp_last_resp_time:` — Python float truthiness, so
a recorded response time of exactly 0.0 leaves `age = None`; `lacp_down`
clears the packet/timestamps; the response timestamp is set whenever the
reply branch is taken (even if the reply was suppressed); finally
`dyn_last_lacp_pkt` and `dyn_lacp_updated_time` are set unconditionally. -/
def lacp_handler_step (st : LacpPortState) (lacp_pkt : Nat) (actor_up : Bool)
    (lacp_resp_interval : ℚ) (passthrough_ok : Bool) (now : ℚ) :
    LacpHandlerResult :=
  let age : Option ℚ :=
    match st.dyn_lacp_last_resp_time with
    | some t => if t = 0 then none else some (now - t)
    | none => none
  let lacp_state_change : Bool := st.dyn_lacp_up != actor_up
  let lacp_pkt_change : Bool :=
    match st.dyn_last_lacp_pkt with
    | none => true
    | some p => p != lacp_pkt
  let st1 : LacpPortState :=
    if lacp_state_change then
      if actor_up then
        -- lacp_up(port)
        { st with dyn_lacp_up := true }
      else
        -- lacp_down(port)
        { st with dyn_lacp_up := false, dyn_last_lacp_pkt := none,
                  dyn_lacp_updated_time := none, dyn_lacp_last_resp_time := none }
    else st
  let reply_branch : Bool :=
    lacp_pkt_change ||
      (match age with
       | some a => decide (lacp_resp_interval < a)
       | none => false)
  let st2 : LacpPortState :=
    if reply_branch then { st1 with dyn_lacp_last_resp_time := some now } else st1
  let st3 : LacpPortState :=
    { st2 with dyn_last_lacp_pkt := some lacp_pkt, dyn_lacp_updated_time := some now }
  { state := st3
    transition :=
      if lacp_state_change then
        (if actor_up then some .toUp else some .toDown)
      else none
    reply_emitted := reply_branch && passthrough_ok }

/-! ## Configuration reload (`Valve.reload_config`, `_apply_config_changes`) -/

/-- The dynamic DP sub-state that `reload_config` reads.  `dp_init(new_dp)`
calls `new_dp.clone_dyn_state(self.dp)`, so this sub-state survives the
swap; in particular `self.dp.dyn_running` read after `_apply_config_changes`
is the pre-reload value. -/
structure DpDynState where
  dyn_running : Bool
  dyn_up_port_nos : List Nat
deriving DecidableEq, Repr

/-- The diff computed by `dp.get_config_changes` (the tuple unpacked at the
top of `_apply_config_changes`). -/
structure ConfigChanges where
  deleted_ports : List Nat
  changed_ports : List Nat
  changed_acl_ports : List Nat
  deleted_vids : List Nat
  changed_vids : List Nat
  all_ports_changed : Bool
deriving DecidableEq, Repr

/-- One step in the trace of `_apply_config_changes`.  The collaborating
managers invoked by `ports_delete` / `_del_vlans` / `_add_vlans` /
`ports_add` / `acl_manager.cold_start_port` live outside `src/`, so each
per-port / per-VLAN operation is one opaque token; `swapDp` marks the
`dp_init(new_dp)` swap point, which emits no OpenFlow message. -/
inductive ReloadOp where
  | portDelete (p : Nat)
  | vlanDelete (v : Nat)
  | swapDp
  | vlanAdd (v : Nat)
  | portAdd (p : Nat)
  | aclColdStartPort (p : Nat)
deriving DecidableEq, Repr

/-- Whether a trace element is an emitted OpenFlow message (everything but
the DP swap). -/
def reloadOpIsMsg : ReloadOp → Bool
  | .swapDp => false
  | _ => true

/-- Embedding of `Valve._apply_config_changes(new_dp, changes)`.
Returns `(cold_start, trace)` where the trace interleaves the emitted
operations with the `swapDp` point, in source order.  `pipeline_changed`
models `self._pipeline_change()` (the stored table-features comparison; the
base `Valve` always reports `False`).  `has_acl_manager` models
`self.acl_manager` being non-`None`.  `all_up_port_nos` is computed from the
pre-swap `self.dp.dyn_up_port_nos`.  The `if deleted_ports:` style guards
of the source collapse at this per-element granularity but are kept. -/
def apply_config_changes (pipeline_changed : Bool) (dp : DpDynState)
    (has_acl_manager : Bool) (c : ConfigChanges) : Bool × List ReloadOp :=
  if pipeline_changed then
    (true, [])
  else if c.all_ports_changed then
    (true, [])
  else
    let all_up_port_nos :=
      c.changed_ports.filter (fun p => p ∈ dp.dyn_up_port_nos)
    let trace :=
      (if c.deleted_ports ≠ [] then c.deleted_ports.map ReloadOp.portDelete
       else []) ++
      (if c.deleted_vids ≠ [] then c.deleted_vids.map ReloadOp.vlanDelete
       else []) ++
      (if c.changed_ports ≠ [] then c.changed_ports.map ReloadOp.portDelete
       else []) ++
      [ReloadOp.swapDp] ++
      (if c.changed_vids ≠ [] then
        c.changed_vids.map ReloadOp.vlanDelete ++
          c.changed_vids.map ReloadOp.vlanAdd
       else []) ++
      (if c.changed_ports ≠ [] then all_up_port_nos.map ReloadOp.portAdd
       else []) ++
      (if has_acl_manager ∧ c.changed_acl_ports ≠ [] then
        c.changed_acl_ports.map ReloadOp.aclColdStartPort
       else [])
    (false, trace)

/-- The `restart_type` carried by the `CONFIG_CHANGE` notification. -/
inductive RestartType where
  | cold
  | warm
  | null
deriving DecidableEq, Repr

/-- Embedding of `Valve.reload_config(now, new_dp)`.  Returns the message
list handed back to the caller (`none` models Python `None`, forcing a
reconnect) together with the notified restart type. -/
def reload_config (pipeline_changed : Bool) (dp : DpDynState)
    (has_acl_manager : Bool) (c : ConfigChanges) :
    Option (List ReloadOp) × RestartType :=
  let r := apply_config_changes pipeline_changed dp has_acl_manager c
  let cold_start := r.1
  let ofmsgs := r.2.filter reloadOpIsMsg
  if cold_start then
    (if dp.dyn_running then (none, .cold) else (some ofmsgs, .cold))
  else if dp.dyn_running ∧ ofmsgs ≠ [] then
    (some ofmsgs, .warm)
  else
    (some [], .null)

/-! ## Packet-in validation (`Valve.parse_pkt_meta`, `parse_rcv_packet`) -/

/-- The per-port configuration read on the packet-in path. -/
structure PortConf where
  number : Nat
  stack : Bool
  tagged_vlans : List Nat
  native_vlan : Option Nat
deriving DecidableEq, Repr

/-- The DP configuration and dynamic flags read on the packet-in path.
`vlans` holds the configured VIDs; `stack` models `dp.stack is not None`;
`global_vlan` is 0 when unset (Python falsy default). -/
structure DpConf where
  dyn_running : Bool
  strict_packet_in_cookie : Bool
  cookie : Nat
  vlans : List Nat
  ports : List PortConf
  global_vlan : Nat
  stack : Bool
deriving DecidableEq, Repr

/-- `dp.ports[in_port]` / `dp.port_no_valid(in_port)`. -/
def find_port (dp : DpConf) (port_no : Nat) : Option PortConf :=
  dp.ports.find? (fun q => q.number == port_no)

/-- Outcome of `valve_packet.parse_packet_in_pkt` on the packet-in data:
the Ethernet header fields and the VLAN VID, when present.  MAC addresses
are the six octets of the address. -/
structure ParsedPkt where
  eth_src : List Nat
  eth_dst : List Nat
  eth_type : Nat
  vlan_vid : Option Nat
deriving DecidableEq, Repr

/-- `msg.reason` of the OpenFlow packet-in. -/
inductive PacketInReason where
  | action
  | other
deriving DecidableEq, Repr

/-- An OpenFlow packet-in message as `parse_pkt_meta` consumes it.
`hasMatch` models `msg.match` truthiness, `hasData` models `msg.data`
truthiness, and `parsed` the result of the external
`valve_packet.parse_packet_in_pkt` on the (truncated) data: `none` when the
eth header was unparseable. -/
structure PacketInMsg where
  cookie : Nat
  reason : PacketInReason
  hasMatch : Bool
  in_port : Nat
  hasData : Bool
  parsed : Option ParsedPkt
deriving DecidableEq, Repr

/-- The `PacketMeta` fields the claims touch.  The `vlan` is the VID of the
resolved VLAN object (`None` when the packet's VLAN is unknown). -/
structure PktMeta where
  port : PortConf
  vlan : Option Nat
  eth_src : List Nat
  eth_dst : List Nat
  eth_type : Nat
deriving DecidableEq, Repr

/-- Modelled from the spec: `valve_packet.mac_addr_is_unicast` is not under
`src/`; a MAC address is unicast iff the multicast bit (low bit of the
first octet) is clear. -/
def mac_addr_is_unicast (mac : List Nat) : Bool :=
  match mac with
  | b :: _ => b % 2 == 0
  | [] => false

/-- Modelled from the spec: `valve_packet.mac_addr_all_zeros` is not under
`src/`; true iff every octet is zero. -/
def mac_addr_all_zeros (mac : List Nat) : Bool :=
  mac.all (fun b => b == 0)

/-- Modelled from the spec: `valve_packet.int_from_mac` is not under
`src/`; for global-VLAN traffic "the destination MAC's low bits encode the
true VID" — the low two octets read as a 16-bit integer. -/
def int_from_mac (mac : List Nat) : Nat :=
  match mac.reverse with
  | lo :: hi :: _ => 256 * hi + lo
  | [lo] => lo
  | [] => 0

/-- `self.dp.vlans.get(vid, None)` on the VID universe. -/
def lookup_vlan (dp : DpConf) (vid : Nat) : Option Nat :=
  if vid ∈ dp.vlans then some vid else none

/-- The VLAN `parse_rcv_packet` leaves in `pkt_meta.vlan`: the configured
VLAN of the tag's VID, except that a VID equal to `dp.global_vlan` is
remapped through `int_from_mac(eth_dst)` (inter-VLAN routed traffic). -/
def effective_vlan (dp : DpConf) (p : ParsedPkt) : Option Nat :=
  match p.vlan_vid with
  | none => none
  | some v =>
    if v = dp.global_vlan then lookup_vlan dp (int_from_mac p.eth_dst)
    else lookup_vlan dp v

/-- Embedding of `Valve.parse_rcv_packet` (the caller has already resolved
`in_port` to `port`).  The rewrite of `eth_dst` to the VLAN's
`faucet_mac` on the global-VLAN path is omitted: no claim under scrutiny
reads `eth_dst` past this point. -/
def parse_rcv_packet (dp : DpConf) (port : PortConf) (p : ParsedPkt) : PktMeta :=
  { port := port
    vlan := effective_vlan dp p
    eth_src := p.eth_src
    eth_dst := p.eth_dst
    eth_type := p.eth_type }

/-- The VID check of `parse_pkt_meta`: a present VID that is neither a
configured VLAN nor the global VLAN. -/
def vlan_vid_unknown (dp : DpConf) : Option Nat → Bool
  | some v => decide (v ∉ dp.vlans) && decide (v ≠ dp.global_vlan)
  | none => false

/-- The stacked-DP membership check of `parse_pkt_meta`: the resolved VLAN
is present, not among the port's tagged VLANs and not its native VLAN. -/
def nonmember_vlan (port : PortConf) : Option Nat → Bool
  | some v => decide (v ∉ port.tagged_vlans) && decide (some v ≠ port.native_vlan)
  | none => false

/-- Embedding of `Valve.parse_pkt_meta(msg)`: the guard chain in source
order.  Returns `none` on every one-line rejection. -/
def parse_pkt_meta (dp : DpConf) (msg : PacketInMsg) : Option PktMeta :=
  if dp.dyn_running = false then none
  else if dp.strict_packet_in_cookie ∧ dp.cookie ≠ msg.cookie then none
  else if msg.reason ≠ PacketInReason.action then none
  else if msg.hasMatch = false then none
  else if msg.in_port = 0 then none
  else
    match find_port dp msg.in_port with
    | none => none
    | some port =>
      if msg.hasData = false then none
      else
        match msg.parsed with
        | none => none
        | some p =>
          if vlan_vid_unknown dp p.vlan_vid then none
          else if mac_addr_is_unicast (parse_rcv_packet dp port p).eth_src
              = false then none
          else if mac_addr_all_zeros (parse_rcv_packet dp port p).eth_src then
            none
          else if dp.stack && !port.stack &&
              nonmember_vlan port (parse_rcv_packet dp port p).vlan then
            none
          else some (parse_rcv_packet dp port p)

/-- Embedding of `Valve.datapath_disconnect()`: marks the DP not running
(metric/notification side effects carry no flow state). -/
def datapath_disconnect (dp : DpConf) : DpConf :=
  { dp with dyn_running := false }

/-! ## Port status handling (`Valve.port_status_handler`) -/

/-- `reason` of an OpenFlow port-status message; `unknown` stands for any
code outside `{OFPPR_ADD, OFPPR_DELETE, OFPPR_MODIFY}`. -/
inductive PortStatusReason where
  | add
  | delete
  | modify
  | unknown
deriving DecidableEq, Repr

/-- The port fields `port_status_handler` reads. -/
structure StatusPort where
  number : Nat
  opstatus_reconf : Bool
  dyn_phys_up : Bool
deriving DecidableEq, Repr

/-- The two flow bundles `port_status_handler` can emit for this Valve;
`port_delete` / `port_add` call into managers outside `src/`, so each is
one opaque token. -/
inductive PortFlowOp where
  | portDeleteFlows (p : Nat)
  | portAddFlows (p : Nat)
deriving DecidableEq, Repr

/-- Embedding of `Valve.port_status_handler(port_no, reason, state)` (the
message list it produces for `self`).  `port_status` is the decoded
`valve_of.port_status_from_state(state)` — `valve_of` is not under `src/`,
so the decoded boolean is taken as the input, as the claim's "an up state".
The notification and metric side effects carry no flows. -/
def port_status_handler (ports : List StatusPort) (port_no : Nat)
    (reason : PortStatusReason) (port_status : Bool) : List PortFlowOp :=
  match ports.find? (fun q => q.number == port_no) with
  | none => []
  | some port =>
    if port.opstatus_reconf = false then []
    else if reason = .unknown then []
    else if reason = .add ∨ (reason = .modify ∧ port_status = true) then
      (if port.dyn_phys_up then [PortFlowOp.portDeleteFlows port_no] else []) ++
        [PortFlowOp.portAddFlows port_no]
    else [PortFlowOp.portDeleteFlows port_no]

/-! ## LACP expiry (`Valve._lacp_state_expire`, `lacp_down`) -/

/-- Modelled from the spec: `valve_packet.LACP_SIZE` is not under `src/`;
the byte size of a LACP PDU used to truncate the controller punt. -/
def LACP_SIZE : Nat := 124

/-- The port fields the LACP expiry path reads. -/
structure LagPort where
  number : Nat
  lacp : Nat
  dyn_lacp_up : Bool
  dyn_lacp_updated_time : Option ℚ
  vlans : List Nat
deriving DecidableEq, Repr

/-- The OpenFlow messages `lacp_down` emits, as tokens: host-manager state
deletion and flood re-programming call managers outside `src/`; the two
vlan-table flowmods carry the fields the claims check (in_port, priority,
and the punt's `max_len`). -/
inductive OfMsg where
  | hostMgrDelPort (p : Nat)
  | floodAddVlan (v : Nat)
  | vlanFlowDrop (in_port : Nat) (priority : Nat)
  | vlanFlowController (in_port : Nat) (priority : Nat) (max_len : Nat)
deriving DecidableEq, Repr

/-- Embedding of `Valve.lacp_down(port, cold_start)`'s emitted messages, in
source order: (unless cold starting) host-manager deletion and per-VLAN
flood updates, then the input drop at `high_priority`, then the
SLOW-protocol controller punt at `highest_priority` truncated to
`LACP_SIZE`. -/
def lacp_down_msgs (high_priority highest_priority : Nat) (port : LagPort)
    (cold_start : Bool) : List OfMsg :=
  (if cold_start then []
   else OfMsg.hostMgrDelPort port.number :: port.vlans.map OfMsg.floodAddVlan) ++
  [OfMsg.vlanFlowDrop port.number high_priority,
   OfMsg.vlanFlowController port.number highest_priority LACP_SIZE]

/-- The dynamic-state reset performed by `lacp_down`. -/
def lacp_down_state (port : LagPort) : LagPort :=
  { port with dyn_lacp_up := false, dyn_lacp_updated_time := none }

/-- The expiry condition of `_lacp_state_expire`: the port belongs to an up
LACP bundle (it is listed by `dp.lags_up()`, modelled from the spec as the
LACP-configured ports with `dyn_lacp_up` set — `dp.py` is not under
`src/`) and `now - dyn_lacp_updated_time > lacp_timeout`.  A port with
`dyn_lacp_up` set always has an update time (set by `lacp_handler` before
returning); `none` is treated as not expired. -/
def lacp_expired (lacp_timeout now : ℚ) (p : LagPort) : Bool :=
  decide (p.lacp ≠ 0) && p.dyn_lacp_up &&
    (match p.dyn_lacp_updated_time with
     | some t => decide (lacp_timeout < now - t)
     | none => false)

/-- Embedding of `Valve._lacp_state_expire(now, _)`: every expired port of
an up LAG is forced down (`lacp_down`, not a cold start) and its messages
are appended. -/
def lacp_state_expire (high_priority highest_priority : Nat)
    (lacp_timeout now : ℚ) (ports : List LagPort) :
    List LagPort × List OfMsg :=
  (ports.map (fun q =>
     if lacp_expired lacp_timeout now q then lacp_down_state q else q),
   ((ports.filter (lacp_expired lacp_timeout now)).map (fun q =>
     lacp_down_msgs high_priority highest_priority q false)).flatten)

/-- The LACP part of `Valve.state_expire(now, other_valves)`: the expiry
pass runs only when the datapath is running. -/
def state_expire_lacp (dyn_running : Bool) (high_priority highest_priority : Nat)
    (lacp_timeout now : ℚ) (ports : List LagPort) :
    List LagPort × List OfMsg :=
  if dyn_running then
    lacp_state_expire high_priority highest_priority lacp_timeout now ports
  else
    (ports, [])

/-! ## Port addition (`Valve.ports_add`) -/

/-- The DP configuration `ports_add` reads. -/
structure AddDpConf where
  low_priority : Nat
  highest_priority : Nat
  dot1x : Bool
  vlans : List Nat
deriving DecidableEq, Repr

/-- The port fields `ports_add` reads.  `running` models `port.running()`
after `dyn_phys_up` has been set `True` (the port being administratively
enabled; `Port.running` lives in `port.py`, outside `src/`). -/
structure AddPort where
  number : Nat
  running : Bool
  coprocessor : Bool
  output_only : Bool
  receive_lldp : Bool
  lacp : Nat
  lacp_active : Bool
  stack : Bool
  tagged_vlans : List Nat
  native_vlan : Option Nat
deriving DecidableEq, Repr

/-- Messages emitted by `ports_add`, as tokens.  The two vlan-table
flowmods installed for a stack port carry their priorities: the
untagged-traffic (`NullVLAN` match) drop and the accept-to-classification
rule.  Flow bundles built by external managers are opaque. -/
inductive AddMsg where
  | mgrAddPort (p : Nat)
  | coprocFlows (p : Nat)
  | dot1xFlows (p : Nat)
  | outputOnlyDrop (p : Nat) (priority : Nat)
  | lldpPunt (p : Nat) (priority : Nat) (max_len : Nat)
  | lacpDownFlows (p : Nat)
  | lacpTxPdu (p : Nat)
  | nullVlanDrop (p : Nat) (priority : Nat)
  | stackAccept (p : Nat) (priority : Nat)
  | portVlanRules (p : Nat)
  | floodAddVlan (v : Nat)
deriving DecidableEq, Repr

/-- The per-port body of the `ports_add` loop, in source order: manager
`add_port` hooks; coprocessor flows (and stop); dot1x flows; output-only
drop (and stop); LLDP punt; LACP initialisation (down flows, plus a PDU
when `lacp_active`); then for a stack port the untagged drop at
`low_priority + 1` and the accept into classification at `low_priority`,
or otherwise the port/VLAN rules. -/
def ports_add_one (dp : AddDpConf) (port : AddPort) : List AddMsg :=
  if port.running = false then []
  else
    AddMsg.mgrAddPort port.number ::
    (if port.coprocessor then [AddMsg.coprocFlows port.number]
     else
      (if dp.dot1x then [AddMsg.dot1xFlows port.number] else []) ++
      (if port.output_only then
        [AddMsg.outputOnlyDrop port.number dp.highest_priority]
       else
        (if port.receive_lldp then
          [AddMsg.lldpPunt port.number dp.highest_priority 128] else []) ++
        (if port.lacp ≠ 0 then
          AddMsg.lacpDownFlows port.number ::
            (if port.lacp_active then [AddMsg.lacpTxPdu port.number] else [])
         else []) ++
        (if port.stack then
          [AddMsg.nullVlanDrop port.number (dp.low_priority + 1),
           AddMsg.stackAccept port.number dp.low_priority]
         else [AddMsg.portVlanRules port.number])))

/-- The VLANs a port contributes to `vlans_with_ports_added`: all DP VLANs
for a stack port, else its tagged plus native VLANs. -/
def port_vlans_added (dp : AddDpConf) (p : AddPort) : List Nat :=
  if p.running = false then []
  else if p.coprocessor then []
  else if p.output_only then []
  else if p.stack then dp.vlans
  else p.tagged_vlans ++ (match p.native_vlan with
    | some v => [v]
    | none => [])

/-- Embedding of `Valve.ports_add(port_nums, cold_start)`.  The caller's
port numbers are taken already resolved against `dp.ports` (numbers not in
the configuration are skipped with a log line).  When not cold starting,
flood programming is re-emitted for each VLAN that gained a port (the
source collects them in an unordered set; modelled as a deduplicated
list). -/
def ports_add (dp : AddDpConf) (cold_start : Bool) (ports : List AddPort) :
    List AddMsg :=
  (ports.map (ports_add_one dp)).flatten ++
  (if cold_start then []
   else ((ports.map (port_vlans_added dp)).flatten.dedup).map AddMsg.floodAddVlan)

end Faucet

/-! ## Theorems -/

namespace Faucet

/-- **C1 (counterexample).** The claim's timeout row (`(now − last_seen) /
send_interval ≥ max_lldp_lost` and not DOWN and ever saw a probe ⟹ DOWN)
fails when the last probe arrived exactly at `now` and `max_lldp_lost = 0`:
the ratio `0/8 = 0 ≥ 0` holds, the port (in INIT) is not DOWN and a probe
was seen, yet the code leaves the state unchanged (`none`), not DOWN. -/
theorem stack_link_timeout_row_counterexample :
    (0 : ℚ) ≤ ((5 : ℚ) - 5) / 8 ∧
    StackState.init ≠ StackState.down ∧
    next_stack_link_state .init (some (5, true)) 8 0 5 = none := by
  refine ⟨by norm_num, by decide, ?_⟩
  unfold next_stack_link_state
  norm_num

/-- **C1 (amended).** For every stack port that is not admin-down and every
`now`, the next stack link state follows the §4.7 table, with the timeout
row additionally requiring `now ≠ last_seen` (the code keeps the current
state when the last probe arrived exactly at `now`): no probe ever seen and
currently DOWN ⟹ INIT (else no change); `stack_correct` false and not
DOWN ⟹ DOWN; probe seen, `(now − last_seen) / send_interval ≥
max_lldp_lost`, not DOWN and `now ≠ last_seen` ⟹ DOWN; probes recent and
correct and not UP ⟹ UP; otherwise no change — and the resulting state is
always one of INIT, UP, DOWN. -/
theorem stack_link_state_table (cur : StackState) (probe : Option (ℚ × Bool))
    (si mll now : ℚ) (hadmin : cur ≠ .adminDown) :
    (probe = none → cur = .down →
      next_stack_link_state cur probe si mll now = some .init) ∧
    (probe = none → cur ≠ .down →
      next_stack_link_state cur probe si mll now = none) ∧
    (∀ t, probe = some (t, false) → cur ≠ .down →
      next_stack_link_state cur probe si mll now = some .down) ∧
    (∀ t, probe = some (t, false) → cur = .down →
      next_stack_link_state cur probe si mll now = none) ∧
    (∀ t c, probe = some (t, c) → mll ≤ (now - t) / si → cur ≠ .down →
      now - t ≠ 0 →
      next_stack_link_state cur probe si mll now = some .down) ∧
    (∀ t, probe = some (t, true) → (now - t) / si < mll → cur ≠ .up →
      next_stack_link_state cur probe si mll now = some .up) ∧
    (∀ t, probe = some (t, true) → (now - t) / si < mll → cur = .up →
      next_stack_link_state cur probe si mll now = none) ∧
    (∀ t, probe = some (t, true) → mll ≤ (now - t) / si →
      (cur = .down ∨ now - t = 0) →
      next_stack_link_state cur probe si mll now = none) ∧
    (apply_next_state cur (next_stack_link_state cur probe si mll now) = .init ∨
     apply_next_state cur (next_stack_link_state cur probe si mll now) = .up ∨
     apply_next_state cur (next_stack_link_state cur probe si mll now) = .down) := by
  unfold next_stack_link_state apply_next_state
  rcases probe with _ | ⟨t, c⟩
  · rcases cur <;> simp_all
  · rcases cur <;> rcases c <;>
      by_cases hto : (now - t) / si < mll <;>
        by_cases hts : now - t = 0 <;>
          simp_all [not_lt]

/-- **C2 (counterexample).** A reply PDU is *not* always emitted when the
PDU content differs from the last recorded PDU: on a port with
`lacp_passthrough` configured and a passthrough peer LACP-down,
`_lacp_actions` returns no packets.  Here no previous PDU is recorded (so
the content differs by definition), yet `reply_emitted` is false. -/
theorem lacp_reply_passthrough_counterexample :
    (⟨true, none, none, none⟩ : LacpPortState).dyn_last_lacp_pkt ≠ some 1 ∧
    (lacp_handler_step ⟨true, none, none, none⟩ 1 true 1 false 0).reply_emitted
      = false := by
  constructor
  · decide
  · rfl

/-- **C2 (amended).** On a valid LACP PDU on a LACP-configured port, the
port transitions to UP exactly when the PDU classifies the actor as up and
the port is currently DOWN, and to DOWN exactly when the actor is not up
and the port is currently UP; and a reply PDU is emitted exactly when (the
PDU content differs from the last recorded PDU, or a last response was
recorded at a nonzero time and more than `lacp_resp_interval` has elapsed
since it — a response time of exactly 0.0 is falsy and skips the interval
path) *and* no configured `lacp_passthrough` peer port is LACP-down (PDU
emission is suppressed otherwise). -/
theorem lacp_handler_transitions_and_reply (st : LacpPortState) (lacp_pkt : Nat)
    (actor_up : Bool) (lacp_resp_interval : ℚ) (passthrough_ok : Bool) (now : ℚ) :
    ((lacp_handler_step st lacp_pkt actor_up lacp_resp_interval passthrough_ok
        now).transition = some .toUp ↔
      (actor_up = true ∧ st.dyn_lacp_up = false)) ∧
    ((lacp_handler_step st lacp_pkt actor_up lacp_resp_interval passthrough_ok
        now).transition = some .toDown ↔
      (actor_up = false ∧ st.dyn_lacp_up = true)) ∧
    ((lacp_handler_step st lacp_pkt actor_up lacp_resp_interval passthrough_ok
        now).reply_emitted = true ↔
      ((st.dyn_last_lacp_pkt ≠ some lacp_pkt ∨
        (∃ t, st.dyn_lacp_last_resp_time = some t ∧ t ≠ 0 ∧
          lacp_resp_interval < now - t)) ∧ passthrough_ok = true)) := by
  unfold lacp_handler_step
  rcases st with ⟨up, lastPkt, lastResp, updated⟩
  rcases up <;> rcases actor_up <;> rcases passthrough_ok <;>
    rcases lastPkt with _ | p <;> rcases lastResp with _ | t
  all_goals try by_cases ht : t = 0
  all_goals simp_all [bne_iff_ne]

/-- **C3.** `reload_config` cold-starts exactly when the pipeline changed or
all ports changed; a cold start on a running datapath returns `None` to
force reconnection; on the warm path, if the datapath is not running or no
messages were produced, the result is an empty message list with
restart_type null, and otherwise restart_type is warm. -/
theorem reload_config_cold_warm_null (pc : Bool) (dp : DpDynState) (acl : Bool)
    (c : ConfigChanges) :
    ((apply_config_changes pc dp acl c).1 = true ↔
      (pc = true ∨ c.all_ports_changed = true)) ∧
    ((apply_config_changes pc dp acl c).1 = true → dp.dyn_running = true →
      reload_config pc dp acl c = (none, .cold)) ∧
    ((apply_config_changes pc dp acl c).1 = false →
      (dp.dyn_running = false ∨
        ((apply_config_changes pc dp acl c).2.filter reloadOpIsMsg) = []) →
      reload_config pc dp acl c = (some [], .null)) ∧
    ((apply_config_changes pc dp acl c).1 = false → dp.dyn_running = true →
      ((apply_config_changes pc dp acl c).2.filter reloadOpIsMsg) ≠ [] →
      (reload_config pc dp acl c).2 = .warm) := by
  refine ⟨?_, ?_, ?_, ?_⟩
  · unfold apply_config_changes
    rcases pc <;> rcases hall : c.all_ports_changed <;> simp_all
  · intro h1 h2
    simp [reload_config, h1, h2]
  · intro h1 h2
    rcases h2 with h2 | h2 <;> simp [reload_config, h1, h2]
  · intro h1 h2 h3
    simp [reload_config, h1, h2, h3]

/-- Witness for `reload_config_cold_warm_null`: a running DP with one
changed, previously-up port takes the warm path. -/
theorem reload_config_cold_warm_null_witness :
    (reload_config false ⟨true, [1]⟩ false ⟨[], [1], [], [], [], false⟩).2 =
      RestartType.warm := by
  exact (reload_config_cold_warm_null false ⟨true, [1]⟩ false
    ⟨[], [1], [], [], [], false⟩).2.2.2 (by decide) (by decide) (by decide)

/-- **C4.** On a warm reload the trace of `_apply_config_changes` is, in
order: delete removed ports, delete removed VLANs, delete changed ports,
swap in the new DP, delete-then-re-add changed VLANs, re-add only those
changed ports that were up before the swap (filtered against the pre-swap
`dyn_up_port_nos`), and reinstall ACLs on changed-ACL ports. -/
theorem apply_config_changes_warm_order (dp : DpDynState) (acl : Bool)
    (c : ConfigChanges) (hall : c.all_ports_changed = false) :
    (apply_config_changes false dp acl c).1 = false ∧
    (apply_config_changes false dp acl c).2 =
      c.deleted_ports.map ReloadOp.portDelete ++
      c.deleted_vids.map ReloadOp.vlanDelete ++
      c.changed_ports.map ReloadOp.portDelete ++
      [ReloadOp.swapDp] ++
      (c.changed_vids.map ReloadOp.vlanDelete ++
        c.changed_vids.map ReloadOp.vlanAdd) ++
      (c.changed_ports.filter
        (fun p => p ∈ dp.dyn_up_port_nos)).map ReloadOp.portAdd ++
      (if acl then c.changed_acl_ports.map ReloadOp.aclColdStartPort
       else []) := by
  unfold apply_config_changes
  rcases hdp : c.deleted_ports with _ | ⟨p, ps⟩ <;>
    rcases hdv : c.deleted_vids with _ | ⟨v, vs⟩ <;>
      rcases hcp : c.changed_ports with _ | ⟨q, qs⟩ <;>
        rcases hcv : c.changed_vids with _ | ⟨w, ws⟩ <;>
          rcases acl with _ | _ <;>
            rcases hca : c.changed_acl_ports with _ | ⟨a, as'⟩ <;>
              simp_all

/-- Witness for `apply_config_changes_warm_order` at a concrete diff:
port 1 deleted, VLAN 10 changed, port 2 changed and previously up. -/
theorem apply_config_changes_warm_order_witness :
    (apply_config_changes false ⟨true, [2]⟩ true
      ⟨[1], [2], [3], [], [10], false⟩).2 =
      [ReloadOp.portDelete 1, ReloadOp.portDelete 2, ReloadOp.swapDp,
       ReloadOp.vlanDelete 10, ReloadOp.vlanAdd 10, ReloadOp.portAdd 2,
       ReloadOp.aclColdStartPort 3] := by
  have h := (apply_config_changes_warm_order ⟨true, [2]⟩ true
    ⟨[1], [2], [3], [], [10], false⟩ rfl).2
  rw [h]
  decide

set_option maxHeartbeats 4000000 in
/-- **C5.** `parse_pkt_meta` rejects (returns `None`, so no flows are
emitted) on each of: cookie mismatch under strict cookie checking, a
non-ACTION reason, an absent match, a missing or unconfigured in_port,
absent or unparseable packet data, a VLAN VID that is neither a configured
VLAN nor the global VLAN, a non-unicast source MAC, an all-zero source MAC,
and, on a stacked DP, a non-stack port receiving traffic for a VLAN the
port is not a member of. -/
theorem parse_pkt_meta_rejections (dp : DpConf) (msg : PacketInMsg) :
    (dp.strict_packet_in_cookie = true → dp.cookie ≠ msg.cookie →
      parse_pkt_meta dp msg = none) ∧
    (msg.reason ≠ PacketInReason.action → parse_pkt_meta dp msg = none) ∧
    (msg.hasMatch = false → parse_pkt_meta dp msg = none) ∧
    (msg.in_port = 0 ∨ find_port dp msg.in_port = none →
      parse_pkt_meta dp msg = none) ∧
    (msg.hasData = false ∨ msg.parsed = none → parse_pkt_meta dp msg = none) ∧
    (∀ p v, msg.parsed = some p → p.vlan_vid = some v → v ∉ dp.vlans →
      v ≠ dp.global_vlan → parse_pkt_meta dp msg = none) ∧
    (∀ p, msg.parsed = some p → mac_addr_is_unicast p.eth_src = false →
      parse_pkt_meta dp msg = none) ∧
    (∀ p, msg.parsed = some p → mac_addr_all_zeros p.eth_src = true →
      parse_pkt_meta dp msg = none) ∧
    (∀ p port v, msg.parsed = some p → find_port dp msg.in_port = some port →
      dp.stack = true → port.stack = false → effective_vlan dp p = some v →
      v ∉ port.tagged_vlans → some v ≠ port.native_vlan →
      parse_pkt_meta dp msg = none) := by
  refine ⟨?_, ?_, ?_, ?_, ?_, ?_, ?_, ?_, ?_⟩
  all_goals
    intros
    unfold parse_pkt_meta
    repeat' split
  all_goals simp_all [vlan_vid_unknown, nonmember_vlan, parse_rcv_packet]

/-- Witness for `parse_pkt_meta_rejections`: a packet-in with a non-ACTION
reason is rejected. -/
theorem parse_pkt_meta_rejections_witness :
    parse_pkt_meta ⟨true, false, 0, [], [], 0, false⟩
      ⟨0, .other, true, 1, true, none⟩ = none := by
  exact (parse_pkt_meta_rejections _ _).2.1 (by decide)

/-- **C10.** No packet-in is processed between a disconnect and the next
connect: after `datapath_disconnect` (and in any state with `dyn_running`
false) `parse_pkt_meta` returns `None` for every message. -/
theorem parse_pkt_meta_not_running (dp : DpConf) (msg : PacketInMsg) :
    parse_pkt_meta (datapath_disconnect dp) msg = none ∧
    (dp.dyn_running = false → parse_pkt_meta dp msg = none) := by
  constructor
  · unfold parse_pkt_meta datapath_disconnect
    simp
  · intro h
    unfold parse_pkt_meta
    simp [h]

/-- Witness for `parse_pkt_meta_not_running`: a concrete non-running DP
rejects a concrete packet-in. -/
theorem parse_pkt_meta_not_running_witness :
    parse_pkt_meta ⟨false, false, 5, [7], [], 0, false⟩
      ⟨5, .action, true, 2, true, none⟩ = none := by
  exact (parse_pkt_meta_not_running ⟨false, false, 5, [7], [], 0, false⟩
    ⟨5, .action, true, 2, true, none⟩).2 rfl

/-- **C6.** A MODIFY port-status with an up state on a configured port with
`opstatus_reconf` that is already physically up is treated as a flap: the
message list for this Valve is exactly the `port_delete` flows followed by
the `port_add` flows (deletes positioned before adds). -/
theorem port_status_flap_delete_before_add (ports : List StatusPort)
    (port_no : Nat) (port : StatusPort)
    (hfind : ports.find? (fun q => q.number == port_no) = some port)
    (hreconf : port.opstatus_reconf = true) (hup : port.dyn_phys_up = true) :
    port_status_handler ports port_no .modify true =
      [PortFlowOp.portDeleteFlows port_no, PortFlowOp.portAddFlows port_no] := by
  unfold port_status_handler
  rw [hfind]
  simp [hreconf, hup]

/-- Witness for `port_status_flap_delete_before_add` on a concrete port. -/
theorem port_status_flap_delete_before_add_witness :
    port_status_handler [⟨1, true, true⟩] 1 .modify true =
      [PortFlowOp.portDeleteFlows 1, PortFlowOp.portAddFlows 1] := by
  exact port_status_flap_delete_before_add [⟨1, true, true⟩] 1 ⟨1, true, true⟩
    (by decide) rfl rfl

/-- **C7.** During `state_expire` on a running datapath, every port of an
up LACP bundle whose last update is older than `lacp_timeout` is forced
DOWN, and the forced-down port's emitted messages include the input drop at
`high_priority`, the SLOW-protocol controller punt at `highest_priority`
truncated to `LACP_SIZE`, and the deletion of the port's host and flood
state. -/
theorem state_expire_lacp_timeout (hp hhp : Nat) (lacp_timeout now t : ℚ)
    (ports : List LagPort) (p : LagPort)
    (hmem : p ∈ ports) (hlag : p.lacp ≠ 0) (hup : p.dyn_lacp_up = true)
    (ht : p.dyn_lacp_updated_time = some t) (hage : lacp_timeout < now - t) :
    lacp_expired lacp_timeout now p = true ∧
    (state_expire_lacp true hp hhp lacp_timeout now ports).1 =
      ports.map (fun q =>
        if lacp_expired lacp_timeout now q then lacp_down_state q else q) ∧
    (lacp_down_state p).dyn_lacp_up = false ∧
    OfMsg.vlanFlowDrop p.number hp ∈
      (state_expire_lacp true hp hhp lacp_timeout now ports).2 ∧
    OfMsg.vlanFlowController p.number hhp LACP_SIZE ∈
      (state_expire_lacp true hp hhp lacp_timeout now ports).2 ∧
    OfMsg.hostMgrDelPort p.number ∈
      (state_expire_lacp true hp hhp lacp_timeout now ports).2 ∧
    (∀ v ∈ p.vlans, OfMsg.floodAddVlan v ∈
      (state_expire_lacp true hp hhp lacp_timeout now ports).2) := by
  have hexp : lacp_expired lacp_timeout now p = true := by
    simp [lacp_expired, hlag, hup, ht, hage]
  have hfil : p ∈ ports.filter (lacp_expired lacp_timeout now) :=
    List.mem_filter.mpr ⟨hmem, hexp⟩
  have hdl : lacp_down_msgs hp hhp p false ∈
      (ports.filter (lacp_expired lacp_timeout now)).map (fun q =>
        lacp_down_msgs hp hhp q false) :=
    List.mem_map.mpr ⟨p, hfil, rfl⟩
  have hjoin : ∀ x ∈ lacp_down_msgs hp hhp p false,
      x ∈ (state_expire_lacp true hp hhp lacp_timeout now ports).2 := by
    intro x hx
    exact List.mem_flatten.mpr ⟨lacp_down_msgs hp hhp p false, hdl, hx⟩
  refine ⟨hexp, rfl, rfl, ?_, ?_, ?_, ?_⟩
  · exact hjoin _ (by simp [lacp_down_msgs])
  · exact hjoin _ (by simp [lacp_down_msgs])
  · exact hjoin _ (by simp [lacp_down_msgs])
  · intro v hv
    exact hjoin _ (by simp [lacp_down_msgs, hv])

/-- Witness for `state_expire_lacp_timeout`: a LAG-5 port last updated at
time 0 expires at time 100 with timeout 30. -/
theorem state_expire_lacp_timeout_witness :
    OfMsg.vlanFlowController 1 9099 LACP_SIZE ∈
      (state_expire_lacp true 9000 9099 30 100 [⟨1, 5, true, some 0, [10]⟩]).2 := by
  exact (state_expire_lacp_timeout 9000 9099 30 100 0
    [⟨1, 5, true, some 0, [10]⟩] ⟨1, 5, true, some 0, [10]⟩
    (by simp) (by decide) rfl rfl (by norm_num)).2.2.2.2.1

/-- **C8.** For every stack port processed by `ports_add` (valid, running,
not a coprocessor or output-only port), the emitted flows include a drop
rule matching untagged (`NullVLAN`) traffic on that port at
`low_priority + 1` and the rule accepting the port's remaining traffic into
classification at `low_priority`, and the drop's priority is strictly
higher. -/
theorem ports_add_stack_untagged_drop (dp : AddDpConf) (cold_start : Bool)
    (ports : List AddPort) (p : AddPort) (hmem : p ∈ ports)
    (hrun : p.running = true) (hcop : p.coprocessor = false)
    (hout : p.output_only = false) (hstack : p.stack = true) :
    AddMsg.nullVlanDrop p.number (dp.low_priority + 1) ∈
      ports_add dp cold_start ports ∧
    AddMsg.stackAccept p.number dp.low_priority ∈
      ports_add dp cold_start ports ∧
    dp.low_priority < dp.low_priority + 1 := by
  have hone : ∀ x, (x = AddMsg.nullVlanDrop p.number (dp.low_priority + 1) ∨
      x = AddMsg.stackAccept p.number dp.low_priority) →
      x ∈ ports_add_one dp p := by
    intro x hx
    unfold ports_add_one
    rcases hd : dp.dot1x <;> rcases hl : p.receive_lldp <;>
      by_cases hlacp : p.lacp = 0 <;> rcases ha : p.lacp_active <;>
        rcases hx with hx | hx <;>
          simp [hrun, hcop, hout, hstack, hlacp, hx]
  have hmem1 : ports_add_one dp p ∈ ports.map (ports_add_one dp) :=
    List.mem_map.mpr ⟨p, hmem, rfl⟩
  have hlift : ∀ x, x ∈ ports_add_one dp p →
      x ∈ ports_add dp cold_start ports := by
    intro x hx
    unfold ports_add
    exact List.mem_append_left _ (List.mem_flatten.mpr ⟨_, hmem1, hx⟩)
  exact ⟨hlift _ (hone _ (Or.inl rfl)), hlift _ (hone _ (Or.inr rfl)),
    Nat.lt_succ_self _⟩

/-- Witness for `ports_add_stack_untagged_drop` on a concrete stack port. -/
theorem ports_add_stack_untagged_drop_witness :
    AddMsg.nullVlanDrop 7 (100 + 1) ∈
      ports_add ⟨100, 9099, false, [10]⟩ false
        [⟨7, true, false, false, false, 0, false, true, [], none⟩] := by
  exact (ports_add_stack_untagged_drop ⟨100, 9099, false, [10]⟩ false
    [⟨7, true, false, false, false, 0, false, true, [], none⟩]
    ⟨7, true, false, false, false, 0, false, true, [], none⟩
    (by simp) rfl rfl rfl rfl).1

/-- Witness for `stack_link_state_table`: a port in INIT whose probes timed
out (12 intervals lost ≥ `max_lldp_lost` 3, `now ≠ last_seen`) goes DOWN. -/
theorem stack_link_state_table_witness :
    next_stack_link_state .init (some (0, true)) 8 3 100 = some .down := by
  have h := stack_link_state_table .init (some (0, true)) 8 3 100 (by decide)
  exact h.2.2.2.2.1 0 true rfl (by norm_num) (by decide) (by norm_num)

/-- **C9.** `rate_limit_packet_ins(now)` resets its per-second counter
whenever `now` differs from the last recorded second, increments it on every
call, and returns `True` exactly when `ignore_learn_ins` is positive and the
incremented counter is congruent to 0 modulo `ignore_learn_ins`. -/
theorem rate_limit_packet_ins_spec (st : RateLimitState) (ignore_learn_ins : Nat)
    (now : ℚ) :
    (rate_limit_packet_ins st ignore_learn_ins now).1.last_packet_in_sec = now ∧
    (rate_limit_packet_ins st ignore_learn_ins now).1.packet_in_count_sec =
      (if st.last_packet_in_sec ≠ now then 0 else st.packet_in_count_sec) + 1 ∧
    ((rate_limit_packet_ins st ignore_learn_ins now).2 = true ↔
      (0 < ignore_learn_ins ∧
        (rate_limit_packet_ins st ignore_learn_ins now).1.packet_in_count_sec %
          ignore_learn_ins = 0)) := by
  unfold rate_limit_packet_ins
  by_cases h1 : st.last_packet_in_sec = now <;>
    by_cases h2 : ignore_learn_ins = 0 <;>
      simp [h1, h2, Nat.pos_iff_ne_zero] <;>
        split_ifs with h3 <;>
          simp_all

end Faucet
